import Mathlib

/-!
Shallow embedding of `configure_cors.py`: a script that ensures the
`google-cloud-storage` library is installed and then patches the CORS
configuration of a fixed cloud storage bucket.

The script's effects (printing, raising, the pip subprocess, the remote
bucket state) are made explicit: every run is parameterised by an `Env`
recording the outcome of each fallible step, and the run functions return
the outcome (a returned boolean, or an uncaught exception), the printed
lines, the trace of attempted external steps, and the final remote CORS
rule list of the bucket.
-/

/-- Exceptions that can arise in the script, classified by the exception
classes the script's `except` clauses mention.  `baseException` stands for
a `BaseException` that is not an `Exception` instance (e.g.
`KeyboardInterrupt`). -/
inductive Exc where
  | importError
  | calledProcessError (returncode : Nat)
  | otherException (msg : String)
  | baseException (msg : String)
deriving DecidableEq, Repr

/-- Whether the value is an instance of Python's `Exception` class,
i.e. caught by `except Exception`. -/
def Exc.isException : Exc → Bool
  | .baseException _ => false
  | _ => true

/-- Whether the value is a `subprocess.CalledProcessError`. -/
def Exc.isCalledProcessError : Exc → Bool
  | .calledProcessError _ => true
  | _ => false

/-- Model of Python's `str(e)` for the exceptions above. -/
def excMsg : Exc → String
  | .importError => "ImportError"
  | .calledProcessError c =>
      "Command returned non-zero exit status " ++ toString c ++ "."
  | .otherException m => m
  | .baseException m => m

/-- Result of a Python function call: a returned boolean, or an exception
propagating out of it. -/
inductive Outcome where
  | ret (b : Bool)
  | raised (e : Exc)
deriving DecidableEq, Repr

/-- External steps the script can attempt, in order of appearance. -/
inductive Step where
  | pipInstall
  | clientConstruct
  | bucketResolve
  | corsAssign
  | patchSend
deriving DecidableEq, Repr

/-- One CORS rule, with the four fields the script's literal uses. -/
structure CorsRule where
  origin : List String
  method : List String
  maxAgeSeconds : Nat
  responseHeader : List String
deriving DecidableEq, Repr

/-- Environment of one run: the outcome of each fallible step (`none`
means the step succeeds, `some e` means it raises `e`), the exit behaviour
of the pip subprocess (`.ok code` means the process ran and exited with
`code`, `.error e` means spawning it raised `e`), and the bucket's remote
CORS rules before the run. -/
structure Env where
  importResult : Option Exc
  installRun : Except Exc Nat
  fromImportResult : Option Exc
  clientResult : Option Exc
  bucketResult : Option Exc
  corsAssignResult : Option Exc
  patchResult : Option Exc
  remote0 : List CorsRule

/-- `subprocess.check_call`: returns normally on exit code 0, raises
`CalledProcessError` on a nonzero exit code, and propagates any exception
raised while spawning. -/
def check_call (r : Except Exc Nat) : Option Exc :=
  match r with
  | .error e => some e
  | .ok 0 => none
  | .ok (n + 1) => some (Exc.calledProcessError (n + 1))

/-- Result of `install_gcloud_storage`: outcome, printed lines, attempted
external steps. -/
structure InstallResult where
  outcome : Outcome
  output : List String
  steps : List Step
deriving DecidableEq, Repr

/-- `install_gcloud_storage`: try to import `google.cloud.storage`; on
`ImportError`, run `pip install` via `subprocess.check_call`, catching
only `CalledProcessError`. -/
def install_gcloud_storage (env : Env) : InstallResult :=
  match env.importResult with
  | none =>
      ⟨.ret true, ["google-cloud-storage is already installed"], []⟩
  | some Exc.importError =>
      match check_call env.installRun with
      | none =>
          ⟨.ret true,
            ["Installing google-cloud-storage...",
             "google-cloud-storage installed successfully"],
            [.pipInstall]⟩
      | some (Exc.calledProcessError c) =>
          ⟨.ret false,
            ["Installing google-cloud-storage...",
             "Failed to install google-cloud-storage: " ++
               excMsg (Exc.calledProcessError c)],
            [.pipInstall]⟩
      | some e =>
          ⟨.raised e, ["Installing google-cloud-storage..."], [.pipInstall]⟩
  | some e => ⟨.raised e, [], []⟩

/-- The CORS configuration literal built on every run (lines 36-50 of the
script). -/
def cors_config : List CorsRule :=
  [{ origin :=
       ["http://localhost:5174",
        "http://localhost:5173",
        "http://localhost:3000",
        "http://localhost:8080",
        "https://lamah-357f3.web.app",
        "https://lamah-357f3.firebaseapp.com"],
     method := ["GET", "HEAD"],
     maxAgeSeconds := 3600,
     responseHeader := ["Content-Type"] }]

/-- The fixed bucket name (line 54 of the script). -/
def bucket_name : String := "lamah-357f3.appspot.com"

/-- A local handle to the remote bucket, as returned by `client.bucket`:
it carries the name and the locally assigned CORS attribute. -/
structure BucketHandle where
  name : String
  cors : List CorsRule
deriving DecidableEq, Repr

/-- Python's `repr` of a string: the string between single quotes. -/
def pyStrRepr (s : String) : String :=
  (Char.ofNat 39).toString ++ s ++ (Char.ofNat 39).toString

/-- Python's `repr` of a list of strings, as an f-string renders it. -/
def pyListRepr (xs : List String) : String :=
  "[" ++ String.intercalate ", " (xs.map pyStrRepr) ++ "]"

/-- The lines printed by the success branch (lines 61-66): the banner and,
for each rule of `cors_config`, its origins, methods and max age. -/
def successLines : List String :=
  ["CORS configuration applied successfully!", "CORS settings:"] ++
  cors_config.flatMap (fun rule =>
    ["   Origins: " ++ pyListRepr rule.origin,
     "   Methods: " ++ pyListRepr rule.method,
     "   Max Age: " ++ toString rule.maxAgeSeconds ++ " seconds"])

/-- The lines printed by the `except Exception` handler (lines 71-75). -/
def fallbackLines (e : Exc) : List String :=
  ["Failed to configure CORS: " ++ excMsg e,
   "\nAlternative solutions:",
   "1. Install Google Cloud SDK and use gsutil",
   "2. Use Firebase Console (web interface)",
   "3. Use the Service Worker approach we implemented"]

/-- Result of running the body of the `try` block, before the `except`
handler is applied. -/
inductive BodyResult where
  | ok
  | exc (e : Exc)
deriving DecidableEq, Repr

/-- Outcome of the `try` block body (lines 33-68): result, printed lines,
attempted external steps, and the bucket's remote CORS rules afterwards. -/
structure BodyOut where
  result : BodyResult
  output : List String
  steps : List Step
  remote : List CorsRule
deriving DecidableEq, Repr

/-- The body of the `try` block: import `storage`, build `cors_config`,
construct the client, resolve the bucket handle by `bucket_name`, assign
the CORS attribute, send the patch (a full replace of the remote rules by
the handle's rules), then print the summary. -/
def tryBody (env : Env) : BodyOut :=
  match env.fromImportResult with
  | some e => ⟨.exc e, [], [], env.remote0⟩
  | none =>
    match env.clientResult with
    | some e => ⟨.exc e, [], [.clientConstruct], env.remote0⟩
    | none =>
      match env.bucketResult with
      | some e => ⟨.exc e, [], [.clientConstruct, .bucketResolve], env.remote0⟩
      | none =>
        match env.corsAssignResult with
        | some e =>
            ⟨.exc e, [], [.clientConstruct, .bucketResolve, .corsAssign],
              env.remote0⟩
        | none =>
          let bucket : BucketHandle := { name := bucket_name, cors := cors_config }
          match env.patchResult with
          | some e =>
              ⟨.exc e, [],
                [.clientConstruct, .bucketResolve, .corsAssign, .patchSend],
                env.remote0⟩
          | none =>
              ⟨.ok, successLines,
                [.clientConstruct, .bucketResolve, .corsAssign, .patchSend],
                bucket.cors⟩

/-- Result of `configure_cors`: outcome, printed lines, attempted external
steps, and the bucket's remote CORS rules afterwards. -/
structure RunResult where
  outcome : Outcome
  output : List String
  steps : List Step
  remote : List CorsRule
deriving DecidableEq, Repr

/-- `configure_cors` (lines 26-76): require the ensurer's success, then
run the `try` block; `except Exception` catches exactly the `Exception`
instances, prints the error and the fallback suggestions, and returns
`False`. -/
def configure_cors (env : Env) : RunResult :=
  match (install_gcloud_storage env).outcome with
  | .raised e =>
      ⟨.raised e, (install_gcloud_storage env).output,
        (install_gcloud_storage env).steps, env.remote0⟩
  | .ret false =>
      ⟨.ret false, (install_gcloud_storage env).output,
        (install_gcloud_storage env).steps, env.remote0⟩
  | .ret true =>
    match (tryBody env).result with
    | .ok =>
        ⟨.ret true, (install_gcloud_storage env).output ++ (tryBody env).output,
          (install_gcloud_storage env).steps ++ (tryBody env).steps,
          (tryBody env).remote⟩
    | .exc e =>
        if e.isException then
          ⟨.ret false,
            (install_gcloud_storage env).output ++ (tryBody env).output ++
              fallbackLines e,
            (install_gcloud_storage env).steps ++ (tryBody env).steps,
            (tryBody env).remote⟩
        else
          ⟨.raised e,
            (install_gcloud_storage env).output ++ (tryBody env).output,
            (install_gcloud_storage env).steps ++ (tryBody env).steps,
            (tryBody env).remote⟩

/-- Result of the whole process: exit code and printed lines. -/
structure ProcResult where
  exitCode : Nat
  output : List String
deriving DecidableEq, Repr

/-- The `__main__` block (lines 78-87).  When `configure_cors` returns, the
script falls off the end and the interpreter exits with code 0; an uncaught
exception makes the interpreter exit with a nonzero code. -/
def script_main (env : Env) : ProcResult :=
  match (configure_cors env).outcome with
  | .ret true =>
      ⟨0, ["Configuring Firebase Storage CORS..."] ++ (configure_cors env).output ++
        ["\nCORS configuration complete!",
         "Now refresh your app and images should cache to localStorage!"]⟩
  | .ret false =>
      ⟨0, ["Configuring Firebase Storage CORS..."] ++ (configure_cors env).output ++
        ["\nCORS configuration failed.",
         "Please try the manual gsutil approach or Service Worker solution."]⟩
  | .raised _ =>
      ⟨1, ["Configuring Firebase Storage CORS..."] ++ (configure_cors env).output⟩

/-- All five fallible steps of the `try` block succeed in `env`. -/
def patchSucceeds (env : Env) : Bool :=
  env.fromImportResult.isNone && env.clientResult.isNone &&
    env.bucketResult.isNone && env.corsAssignResult.isNone &&
    env.patchResult.isNone

/-- A run where the library is already importable and every step succeeds. -/
def envAllOk : Env :=
  { importResult := none, installRun := .ok 0, fromImportResult := none,
    clientResult := none, bucketResult := none, corsAssignResult := none,
    patchResult := none, remote0 := [] }

/-- The library is absent and pip exits with code 0. -/
def envInstallOk : Env := { envAllOk with importResult := some .importError }

/-- The library is absent and pip exits with code 1. -/
def envInstallFail : Env :=
  { envAllOk with importResult := some .importError, installRun := .ok 1 }

/-- The patch call raises a (catchable) exception. -/
def envPatchRaises : Env :=
  { envAllOk with patchResult := some (.otherException "Forbidden") }

/-- The import check raises something other than `ImportError`. -/
def envImportRaises : Env :=
  { envAllOk with importResult := some (.otherException "RuntimeError") }

/-- The library is absent and spawning pip raises an `OSError`. -/
def envSpawnRaises : Env :=
  { envAllOk with
    importResult := some .importError,
    installRun := .error (.otherException "OSError") }

/-- A `KeyboardInterrupt` arrives while constructing the client. -/
def envInterrupt : Env :=
  { envAllOk with clientResult := some (.baseException "KeyboardInterrupt") }

/-- A second run, starting from the remote state the first run left. -/
def envSecond : Env := { envAllOk with remote0 := cors_config }

/-- Helper: a `try`-body that raises has printed nothing and left the
remote state unchanged. -/
theorem tryBody_exc (env : Env) (e : Exc) (h : (tryBody env).result = .exc e) :
    (tryBody env).output = [] ∧ (tryBody env).remote = env.remote0 := by
  unfold tryBody at h ⊢
  revert h
  cases env.fromImportResult <;> cases env.clientResult <;>
    cases env.bucketResult <;> cases env.corsAssignResult <;>
    cases env.patchResult <;> simp

/-- Helper: the `try` body either leaves the remote state unchanged or
replaces it by `cors_config`. -/
theorem tryBody_remote (env : Env) :
    (tryBody env).remote = env.remote0 ∨ (tryBody env).remote = cors_config := by
  unfold tryBody
  cases env.fromImportResult <;> cases env.clientResult <;>
    cases env.bucketResult <;> cases env.corsAssignResult <;>
    cases env.patchResult <;> simp

/-- Helper: when all five fallible steps succeed, the `try` body prints the
summary, attempts all four remote steps, and replaces the remote rules by
`cors_config`. -/
theorem tryBody_of_patchSucceeds (env : Env) (h : patchSucceeds env = true) :
    tryBody env =
      ⟨.ok, successLines,
        [.clientConstruct, .bucketResolve, .corsAssign, .patchSend],
        cors_config⟩ := by
  simp only [patchSucceeds, Bool.and_eq_true, Option.isNone_iff_eq_none] at h
  obtain ⟨⟨⟨⟨h1, h2⟩, h3⟩, h4⟩, h5⟩ := h
  simp [tryBody, h1, h2, h3, h4, h5]

/-- Helper: the ensurer's step trace is empty or the single pip call. -/
theorem install_steps_cases (env : Env) :
    (install_gcloud_storage env).steps = [] ∨
      (install_gcloud_storage env).steps = [Step.pipInstall] := by
  unfold install_gcloud_storage
  cases env.importResult with
  | none => simp
  | some e =>
      cases e <;> simp
      cases check_call env.installRun with
      | none => simp
      | some e2 => cases e2 <;> simp

/-- Helper: when the ensurer succeeds and the `try` body raises `e`, the
run's result is determined by whether `e` is an `Exception` instance. -/
theorem configure_cors_body_exc (env : Env) (e : Exc)
    (hinst : (install_gcloud_storage env).outcome = .ret true)
    (hexc : (tryBody env).result = .exc e) :
    configure_cors env =
      if e.isException then
        ⟨.ret false,
          (install_gcloud_storage env).output ++ (tryBody env).output ++
            fallbackLines e,
          (install_gcloud_storage env).steps ++ (tryBody env).steps,
          (tryBody env).remote⟩
      else
        ⟨.raised e,
          (install_gcloud_storage env).output ++ (tryBody env).output,
          (install_gcloud_storage env).steps ++ (tryBody env).steps,
          (tryBody env).remote⟩ := by
  unfold configure_cors
  rw [hinst, hexc]

/-- Helper: when the ensurer succeeds and all five fallible steps succeed,
the run returns `True`, prints the summary, and replaces the remote rules
by `cors_config`. -/
theorem configure_cors_success (env : Env)
    (hinst : (install_gcloud_storage env).outcome = .ret true)
    (hp : patchSucceeds env = true) :
    configure_cors env =
      ⟨.ret true, (install_gcloud_storage env).output ++ successLines,
        (install_gcloud_storage env).steps ++
          [.clientConstruct, .bucketResolve, .corsAssign, .patchSend],
        cors_config⟩ := by
  have ht := tryBody_of_patchSucceeds env hp
  unfold configure_cors
  rw [hinst, ht]

/-- Helper: any run leaves the remote rules unchanged or equal to
`cors_config`. -/
theorem configure_cors_remote (env : Env) :
    (configure_cors env).remote = env.remote0 ∨
      (configure_cors env).remote = cors_config := by
  unfold configure_cors
  cases h : (install_gcloud_storage env).outcome with
  | raised e => simp
  | ret b =>
      cases b
      · simp
      · cases hb : (tryBody env).result with
        | ok => have := tryBody_remote env; simp_all
        | exc e =>
            have := tryBody_remote env
            by_cases hE : e.isException = true <;> simp_all

/-- C1: when the ensurer has succeeded and a step inside the `try` block
(b)-(e) raises an `Exception` instance, `configure_cors` catches it,
prints the error message and the static fallback suggestions, and returns
`False`; the exception does not escape. -/
theorem c1_exceptions_caught (env : Env) (e : Exc)
    (hinst : (install_gcloud_storage env).outcome = .ret true)
    (hexc : (tryBody env).result = .exc e)
    (hE : e.isException = true) :
    configure_cors env =
      ⟨.ret false, (install_gcloud_storage env).output ++ fallbackLines e,
        (install_gcloud_storage env).steps ++ (tryBody env).steps,
        env.remote0⟩ := by
  obtain ⟨ho, hr⟩ := tryBody_exc env e hexc
  rw [configure_cors_body_exc env e hinst hexc, if_pos hE, ho, hr]
  simp

/-- Witness for C1: the patch call raising a `Forbidden` exception is
caught and converted into a `False` return plus the fallback lines. -/
theorem c1_exceptions_caught_witness :
    configure_cors envPatchRaises =
      ⟨.ret false,
        (install_gcloud_storage envPatchRaises).output ++
          fallbackLines (.otherException "Forbidden"),
        (install_gcloud_storage envPatchRaises).steps ++
          (tryBody envPatchRaises).steps,
        envPatchRaises.remote0⟩ :=
  c1_exceptions_caught envPatchRaises (.otherException "Forbidden") rfl rfl rfl

/-- C2: when the ensurer reports failure, `configure_cors` returns `False`
immediately and attempts no remote step: no client construction, no
bucket resolution, no CORS assignment, no patch. -/
theorem c2_no_remote_after_install_failure (env : Env)
    (h : (install_gcloud_storage env).outcome = .ret false) :
    configure_cors env =
      ⟨.ret false, (install_gcloud_storage env).output,
        (install_gcloud_storage env).steps, env.remote0⟩ ∧
    Step.clientConstruct ∉ (configure_cors env).steps ∧
    Step.bucketResolve ∉ (configure_cors env).steps ∧
    Step.corsAssign ∉ (configure_cors env).steps ∧
    Step.patchSend ∉ (configure_cors env).steps := by
  have h1 : configure_cors env =
      ⟨.ret false, (install_gcloud_storage env).output,
        (install_gcloud_storage env).steps, env.remote0⟩ := by
    unfold configure_cors
    rw [h]
  refine ⟨h1, ?_, ?_, ?_, ?_⟩ <;> rw [h1] <;>
    rcases install_steps_cases env with hs | hs <;> simp [hs]

/-- Witness for C2: pip exiting with code 1 makes the whole run return
`False` with no remote step attempted. -/
theorem c2_no_remote_after_install_failure_witness :
    configure_cors envInstallFail =
      ⟨.ret false, (install_gcloud_storage envInstallFail).output,
        (install_gcloud_storage envInstallFail).steps,
        envInstallFail.remote0⟩ :=
  (c2_no_remote_after_install_failure envInstallFail rfl).1

/-- C3: the rule set is the same fixed literal on every run: methods
exactly `["GET", "HEAD"]`, max age exactly `3600`, response headers
exactly `["Content-Type"]`; and no run ever writes anything other than
this exact literal to the remote state (the rules are never mutated
after construction). -/
theorem c3_rule_set_fixed :
    cors_config.map CorsRule.method = [["GET", "HEAD"]] ∧
    cors_config.map CorsRule.maxAgeSeconds = [3600] ∧
    cors_config.map CorsRule.responseHeader = [["Content-Type"]] ∧
    ∀ env, (configure_cors env).remote = env.remote0 ∨
      (configure_cors env).remote = cors_config :=
  ⟨rfl, rfl, rfl, fun env => configure_cors_remote env⟩

/-- C4: whenever the remote patch succeeds, `configure_cors` returns
`True` and the printed summary lists exactly the configured origins, the
methods `["GET", "HEAD"]` and the max age `3600`, one line each for the
single rule. -/
theorem c4_success_summary (env : Env)
    (hinst : (install_gcloud_storage env).outcome = .ret true)
    (hp : patchSucceeds env = true) :
    (configure_cors env).outcome = .ret true ∧
    (configure_cors env).output =
      (install_gcloud_storage env).output ++
        ["CORS configuration applied successfully!", "CORS settings:",
         "   Origins: " ++ pyListRepr
           ["http://localhost:5174", "http://localhost:5173",
            "http://localhost:3000", "http://localhost:8080",
            "https://lamah-357f3.web.app",
            "https://lamah-357f3.firebaseapp.com"],
         "   Methods: " ++ pyListRepr ["GET", "HEAD"],
         "   Max Age: 3600 seconds"] := by
  rw [configure_cors_success env hinst hp]
  exact ⟨rfl, by rfl⟩

/-- Witness for C4: the all-success run returns `True`. -/
theorem c4_success_summary_witness :
    (configure_cors envAllOk).outcome = .ret true :=
  (c4_success_summary envAllOk rfl rfl).1

/-- C5: with the library absent, the ensurer runs pip; exit code 0 yields
`True`, a nonzero exit code yields a printed failure message and `False`,
and in both cases the caller receives a boolean (no exception). -/
theorem c5_installer_reports_boolean (env : Env) (code : Nat)
    (himp : env.importResult = some .importError)
    (hrun : env.installRun = .ok code) :
    (code = 0 →
      install_gcloud_storage env =
        ⟨.ret true,
          ["Installing google-cloud-storage...",
           "google-cloud-storage installed successfully"],
          [.pipInstall]⟩) ∧
    (code ≠ 0 →
      install_gcloud_storage env =
        ⟨.ret false,
          ["Installing google-cloud-storage...",
           "Failed to install google-cloud-storage: " ++
             excMsg (.calledProcessError code)],
          [.pipInstall]⟩) := by
  constructor
  · intro h0
    subst h0
    simp [install_gcloud_storage, himp, check_call, hrun]
  · intro hne
    rcases code with _ | c
    · exact absurd rfl hne
    · simp [install_gcloud_storage, himp, check_call, hrun]

/-- Witness for C5: library absent, pip exits 0, the ensurer returns
`True`. -/
theorem c5_installer_reports_boolean_witness :
    install_gcloud_storage envInstallOk =
      ⟨.ret true,
        ["Installing google-cloud-storage...",
         "google-cloud-storage installed successfully"],
        [.pipInstall]⟩ :=
  (c5_installer_reports_boolean envInstallOk 0 rfl rfl).1 rfl

/-- C6: when the library is already importable, the ensurer returns `True`
and never invokes the pip subprocess. -/
theorem c6_already_importable (env : Env) (h : env.importResult = none) :
    install_gcloud_storage env =
      ⟨.ret true, ["google-cloud-storage is already installed"], []⟩ ∧
    Step.pipInstall ∉ (install_gcloud_storage env).steps := by
  have h1 : install_gcloud_storage env =
      ⟨.ret true, ["google-cloud-storage is already installed"], []⟩ := by
    simp [install_gcloud_storage, h]
  exact ⟨h1, by rw [h1]; simp⟩

/-- Witness for C6: the import-succeeds run. -/
theorem c6_already_importable_witness :
    install_gcloud_storage envAllOk =
      ⟨.ret true, ["google-cloud-storage is already installed"], []⟩ :=
  (c6_already_importable envAllOk rfl).1

/-- C7: two successful runs with the same constants end in the same
remote state as one run: the patch is a full replace of the remote rule
list by `cors_config`, so rules never accumulate. -/
theorem c7_idempotent_overwrite (e1 e2 : Env)
    (h1i : (install_gcloud_storage e1).outcome = .ret true)
    (h1p : patchSucceeds e1 = true)
    (h2i : (install_gcloud_storage e2).outcome = .ret true)
    (h2p : patchSucceeds e2 = true)
    (hchain : e2.remote0 = (configure_cors e1).remote) :
    (configure_cors e2).remote = (configure_cors e1).remote ∧
    (configure_cors e1).remote = cors_config := by
  have r1 : (configure_cors e1).remote = cors_config := by
    rw [configure_cors_success e1 h1i h1p]
  have r2 : (configure_cors e2).remote = cors_config := by
    rw [configure_cors_success e2 h2i h2p]
  exact ⟨r2.trans r1.symm, r1⟩

/-- Witness for C7: a first run from an empty remote state followed by a
second run starting from the state the first run left. -/
theorem c7_idempotent_overwrite_witness :
    (configure_cors envSecond).remote = (configure_cors envAllOk).remote ∧
    (configure_cors envAllOk).remote = cors_config :=
  c7_idempotent_overwrite envAllOk envSecond rfl rfl rfl rfl rfl

/-- C8: whenever `configure_cors` returns a boolean (rather than
raising), the process exits with code 0 — failure is reported only via
printed lines. -/
theorem c8_exit_zero_on_return (env : Env) (b : Bool)
    (h : (configure_cors env).outcome = .ret b) :
    (script_main env).exitCode = 0 := by
  unfold script_main
  rw [h]
  cases b <;> rfl

/-- Witness for C8: the all-success run exits with code 0. -/
theorem c8_exit_zero_on_return_witness :
    (script_main envAllOk).exitCode = 0 :=
  c8_exit_zero_on_return envAllOk true rfl

/-- C9: the rule set holds exactly one rule whose origins are the six
fixed strings in construction order, the bucket name is the fixed string,
and the success summary displays the origins in the same order. -/
theorem c9_constants :
    cors_config =
      [{ origin :=
           ["http://localhost:5174", "http://localhost:5173",
            "http://localhost:3000", "http://localhost:8080",
            "https://lamah-357f3.web.app",
            "https://lamah-357f3.firebaseapp.com"],
         method := ["GET", "HEAD"], maxAgeSeconds := 3600,
         responseHeader := ["Content-Type"] }] ∧
    bucket_name = "lamah-357f3.appspot.com" ∧
    successLines =
      ["CORS configuration applied successfully!", "CORS settings:",
       "   Origins: " ++ pyListRepr
         ["http://localhost:5174", "http://localhost:5173",
          "http://localhost:3000", "http://localhost:8080",
          "https://lamah-357f3.web.app",
          "https://lamah-357f3.firebaseapp.com"],
       "   Methods: " ++ pyListRepr ["GET", "HEAD"],
       "   Max Age: 3600 seconds"] :=
  ⟨rfl, rfl, by rfl⟩

/-- C10: the catch-all does not cover the ensurer: a non-`ImportError`
from the import check, or a non-`CalledProcessError` from spawning pip,
propagates uncaught out of `configure_cors`; and a `BaseException` raised
during steps (b)-(e) is not caught by `except Exception` either. -/
theorem c10_uncovered_paths :
    (∀ env e, env.importResult = some e → e ≠ .importError →
        (configure_cors env).outcome = .raised e) ∧
    (∀ env e, env.importResult = some .importError →
        env.installRun = .error e → e.isCalledProcessError = false →
        (configure_cors env).outcome = .raised e) ∧
    (∀ env e, (install_gcloud_storage env).outcome = .ret true →
        (tryBody env).result = .exc e → e.isException = false →
        (configure_cors env).outcome = .raised e) := by
  refine ⟨?_, ?_, ?_⟩
  · intro env e h hne
    unfold configure_cors install_gcloud_storage
    rw [h]
    cases e with
    | importError => exact absurd rfl hne
    | calledProcessError c => rfl
    | otherException m => rfl
    | baseException m => rfl
  · intro env e himp hrun hcpe
    unfold configure_cors install_gcloud_storage
    rw [himp, hrun]
    cases e with
    | importError => rfl
    | calledProcessError c => simp [Exc.isCalledProcessError] at hcpe
    | otherException m => rfl
    | baseException m => rfl
  · intro env e hinst hexc hE
    have hne : ¬ (e.isException = true) := by simp [hE]
    rw [configure_cors_body_exc env e hinst hexc, if_neg hne]

/-- Witness for C10: a `RuntimeError` in the import check, an `OSError`
spawning pip, and a `KeyboardInterrupt` during client construction all
escape uncaught. -/
theorem c10_uncovered_paths_witness :
    (configure_cors envImportRaises).outcome =
        .raised (.otherException "RuntimeError") ∧
    (configure_cors envSpawnRaises).outcome =
        .raised (.otherException "OSError") ∧
    (configure_cors envInterrupt).outcome =
        .raised (.baseException "KeyboardInterrupt") :=
  ⟨c10_uncovered_paths.1 envImportRaises (.otherException "RuntimeError") rfl
      (by decide),
   c10_uncovered_paths.2.1 envSpawnRaises (.otherException "OSError") rfl rfl
      rfl,
   c10_uncovered_paths.2.2 envInterrupt (.baseException "KeyboardInterrupt")
      rfl rfl rfl⟩
